import Mathlib

/-!
# Verification of the course-administration data-access layer

A shallow embedding of `src/lib/courseService.ts` (the course repository
facade) and of the image-upload API route, together with theorems settling
the frozen claims about them.

Modelling conventions:
* JavaScript strings are `String`; `undefined`/absent values are `Option`.
* JavaScript truthiness on strings (`""` is falsy) and on numbers (`0`,
  `NaN` falsy) is modelled explicitly by the helpers below.
* Numbers are `Int` (the service stores integral counters and prices; no
  claim depends on float behaviour); an absent numeric field is `none` and
  `Number(undefined)` is `NaN`, so `Number(x) || 0` becomes `numOr0`.
* The document store is a list of documents, newest first (`addDoc`
  prepends, matching the `orderBy createdAt desc` read order); document
  references are positions in that list.
* `serverTimestamp()` / `new Date()` are an explicit `now : Nat` parameter,
  and `new Date().toISOString()` an explicit `nowIso : String` parameter;
  `uuidv4()` is an explicit `freshId : String` parameter.
-/

namespace CourseAdmin

/-! ## JavaScript-semantics helpers -/

/-- JS `String.prototype.trim` on the character list: drop whitespace from
the front and from the back. -/
def dropTrailingWS (l : List Char) : List Char :=
  (l.reverse.dropWhile Char.isWhitespace).reverse

/-- JS `s.trim()`. -/
def jsTrim (s : String) : String :=
  String.mk (dropTrailingWS (s.data.dropWhile Char.isWhitespace))

/-- JS `s.toLowerCase()` (ASCII range; the service only feeds it titles). -/
def jsToLower (s : String) : String :=
  String.mk (s.data.map Char.toLower)

/-- JS `a || b` for an optional string `a`: `undefined` and `""` fall
through to the default. -/
def strOr (v : Option String) (d : String) : String :=
  match v with
  | some s => if s = "" then d else s
  | none => d

/-- JS `v?.trim() || d`. -/
def strTrimOr (v : Option String) (d : String) : String :=
  strOr (v.map jsTrim) d

/-- JS `Number(x) || 0` for an optional integer `x`: `Number(undefined)` is
`NaN`, which falls through to `0`. -/
def numOr0 (v : Option Int) : Int :=
  match v with
  | some n => n
  | none => 0

/-- JS truthiness of an optional string. -/
def truthyStr (v : Option String) : Bool :=
  match v with
  | some s => s ≠ ""
  | none => false

/-- JS truthiness of an optional number. -/
def truthyNat (v : Option Nat) : Bool :=
  match v with
  | some n => n ≠ 0
  | none => false

/-- JS `hay.includes(needle)` (substring test). -/
def jsIncludes (hay needle : String) : Bool :=
  decide (needle.data <:+: hay.data)

/-- `filter(item => item && item.trim())` on a string array: drop entries
that are empty or whitespace-only (entries are kept untrimmed). -/
def filterBlank (l : List String) : List String :=
  l.filter (fun s => s ≠ "" && jsTrim s ≠ "")

/-- Replace the first element satisfying `p` (the `docs[0].ref` of an
equality query) with `x`, used to model a targeted `updateDoc`. -/
def setFirst (p : α → Bool) (x : α) : List α → List α
  | [] => []
  | a :: rest => if p a then x :: rest else a :: setFirst p x rest

/-- Remove the first element satisfying `p`, used to model a targeted
`deleteDoc`. -/
def removeFirst (p : α → Bool) : List α → List α
  | [] => []
  | a :: rest => if p a then rest else a :: removeFirst p rest

/-- Index of the first element satisfying `p` (the position of the
`docs[0]` document reference of an equality query). -/
def findFirstIdx (p : α → Bool) : List α → Option Nat
  | [] => none
  | a :: rest => if p a then some 0 else (findFirstIdx p rest).map (· + 1)

/-- Delete the documents whose (absolute) positions are listed in `refs`;
`k` is the position of the head of the remaining list.  Models committing
a write batch of collected document references. -/
def deleteRefsAux (refs : List Nat) : Nat → List α → List α
  | _, [] => []
  | k, a :: rest =>
    if refs.contains k then deleteRefsAux refs (k + 1) rest
    else a :: deleteRefsAux refs (k + 1) rest

/-! ## `src/types/courses.ts` — the course data model -/

/-- `Tool` from `types/courses.ts` (the `IconType` union is a string). -/
structure Tool where
  id : String
  icon : String
  title : String
deriving Repr, DecidableEq

/-- `ToolData` from `types/courses.ts`. -/
structure ToolData where
  sectionTitle : String
  category : String
  toolsCount : String
  displayImage : String
  tools : List Tool
deriving Repr, DecidableEq

/-- `Highlight` from `types/courses.ts`. -/
structure Highlight where
  number : String
  description : String
deriving Repr, DecidableEq

/-- `Module` from `types/courses.ts`. -/
structure Module where
  id : Int
  title : String
  description : Option String
  content : List String
deriving Repr, DecidableEq

/-- `Project` from `types/courses.ts`. -/
structure Project where
  icon : String
  title : String
  description : String
  skills : List String
deriving Repr, DecidableEq

/-- `ProgramFor` from `types/courses.ts`. -/
structure ProgramFor where
  src : String
  alt : String
  text : String
deriving Repr, DecidableEq

/-- A stored course document, which is also the runtime shape of a record
returned by the read operations (`{...data} as Course` keeps exactly the
stored fields).  String fields are always written by `createCourse`, so
they are plain strings; the numeric, array, `toolsData` and timestamp
fields are exactly the ones the read paths defend against absence, so they
are optional here. -/
structure CourseDoc where
  _id : String
  title : String
  slug : String
  shortDescription : String
  category : String
  level : String
  language : String
  duration : String
  hours : String
  programBy : String
  lastUpdated : String
  paymentLink : String
  backgroundImage : String
  certificateImage : String
  globalStatus : String
  startDate : String
  status : String
  rating : Option Int
  totalRatings : Option Int
  enrolledStudents : Option Int
  price : Option Int
  originalPrice : Option Int
  learningOutcomes : Option (List String)
  features : Option (List String)
  skills : Option (List String)
  requirements : Option (List String)
  module : Option (List Module)
  highlights : Option (List Highlight)
  project : Option (List Project)
  programFor : Option (List ProgramFor)
  toolsData : Option ToolData
  createdAt : Option Nat
  updatedAt : Option Nat
deriving Repr, DecidableEq

/-- A course payload as the service receives it (`NewCourse`, and likewise
the partial-update payload of `updateCourse`): every field may be absent,
matching the defensive `?.` / `Array.isArray` / `|| default` handling in
`createCourse`. -/
structure NewCourse where
  title : Option String := none
  slug : Option String := none
  shortDescription : Option String := none
  category : Option String := none
  level : Option String := none
  language : Option String := none
  duration : Option String := none
  hours : Option String := none
  programBy : Option String := none
  lastUpdated : Option String := none
  paymentLink : Option String := none
  backgroundImage : Option String := none
  certificateImage : Option String := none
  globalStatus : Option String := none
  startDate : Option String := none
  status : Option String := none
  rating : Option Int := none
  totalRatings : Option Int := none
  enrolledStudents : Option Int := none
  price : Option Int := none
  originalPrice : Option Int := none
  learningOutcomes : Option (List String) := none
  features : Option (List String) := none
  skills : Option (List String) := none
  requirements : Option (List String) := none
  module : Option (List Module) := none
  highlights : Option (List Highlight) := none
  project : Option (List Project) := none
  programFor : Option (List ProgramFor) := none
  toolsData : Option ToolData := none
deriving Repr, DecidableEq

/-- The document collection, newest document first. -/
structure DB where
  docs : List CourseDoc
deriving Repr, DecidableEq

/-- `CourseResponse` from `types/courses.ts`. -/
structure CourseResponse where
  success : Bool
  data : Option CourseDoc := none
  error : Option String := none
deriving Repr, DecidableEq

/-- The `pagination` payload of `CoursesResponse`. -/
structure Pagination where
  total : Nat
  page : Nat
  pages : Nat
deriving Repr, DecidableEq

/-- `CoursesResponse` from `types/courses.ts`. -/
structure CoursesResponse where
  success : Bool
  data : Option (List CourseDoc) := none
  error : Option String := none
  pagination : Option Pagination := none
deriving Repr, DecidableEq

/-! ## Slug generation

`title.toLowerCase().replace(/\s+/g, '-').replace(/[^a-z0-9-]/g, '')`:
lower-case, collapse each maximal whitespace run to a single hyphen, then
delete every character outside `[a-z0-9-]`. -/

/-- Replace each maximal whitespace run by one `'-'`; `inRun` records
whether the previous character was part of a whitespace run. -/
def collapseWSAux : Bool → List Char → List Char
  | _, [] => []
  | inRun, ch :: rest =>
    if ch.isWhitespace then
      if inRun then collapseWSAux true rest
      else '-' :: collapseWSAux true rest
    else ch :: collapseWSAux false rest

/-- Membership in the slug alphabet `[a-z0-9-]`. -/
def slugChar (ch : Char) : Bool :=
  ('a' ≤ ch && ch ≤ 'z') || ('0' ≤ ch && ch ≤ '9') || ch = '-'

/-- The slug derivation used by `createCourse`, `updateCourse` and
`duplicateCourse`. -/
def slugify (s : String) : String :=
  String.mk ((collapseWSAux false (jsToLower s).data).filter slugChar)

/-! ## Validation — `validateCourseData` (courseService.ts lines 63–110) -/

/-- `!v || v.trim().length === 0` on an optional string field. -/
def blankOpt (v : Option String) : Bool :=
  match v with
  | none => true
  | some s => s = "" || jsTrim s = ""

/-- `!level || !['beginner','intermediate','advanced'].includes(level)`. -/
def levelBad (v : Option String) : Bool :=
  match v with
  | none => true
  | some s => s = "" || !(["beginner", "intermediate", "advanced"].contains s)

/-- `x < 0 || isNaN(x)`: an absent numeric is `NaN`. -/
def badNum (v : Option Int) : Bool :=
  match v with
  | none => true
  | some n => n < 0

/-- JS `a > b` on optional numbers (`undefined` comparisons are false). -/
def numGt (a b : Option Int) : Bool :=
  match a, b with
  | some x, some y => x > y
  | _, _ => false

/-- JS `a > 0` on an optional number. -/
def numGtZero (a : Option Int) : Bool :=
  match a with
  | some x => x > 0
  | none => false

/-- The result shape of `validateCourseData`. -/
structure ValidationResult where
  isValid : Bool
  errors : List String
deriving Repr, DecidableEq

/-- `validateCourseData` from courseService.ts: collect one message per
violated rule, in source order; valid iff no message was collected. -/
def validateCourseData (c : NewCourse) : ValidationResult :=
  let errors :=
    (if blankOpt c.title then ["Title is required"] else []) ++
    (if blankOpt c.shortDescription then ["Short description is required"] else []) ++
    (if blankOpt c.category then ["Category is required"] else []) ++
    (if levelBad c.level then
      ["Valid level is required (beginner, intermediate, or advanced)"] else []) ++
    (if blankOpt c.language then ["Language is required"] else []) ++
    (if blankOpt c.duration then ["Duration is required"] else []) ++
    (if blankOpt c.hours then ["Hours is required"] else []) ++
    (if badNum c.price then ["Price must be a valid number (0 or greater)"] else []) ++
    (if badNum c.originalPrice then
      ["Original price must be a valid number (0 or greater)"] else []) ++
    (if numGtZero c.originalPrice && numGt c.price c.originalPrice then
      ["Price cannot be greater than original price"] else [])
  { isValid := errors.isEmpty, errors := errors }

/-! ## `cleanCourseData` (courseService.ts lines 26–60)

On the fully-populated object built by `createCourse` (and on the partial
update object) every value is defined, strings get trimmed, arrays keep
only non-null entries (a no-op in the typed model), plain nested objects
(`toolsData`) are cleaned recursively, and other values pass through. -/

/-- The default `toolsData` structure supplied by `createCourse`. -/
def defaultToolsData : ToolData :=
  { sectionTitle := "", category := "", toolsCount := "0", displayImage := "", tools := [] }

/-- `cleanCourseData` on a `toolsData` object: trim its string fields; the
`tools` array keeps its (non-null) entries unchanged. -/
def cleanToolData (t : ToolData) : ToolData :=
  { sectionTitle := jsTrim t.sectionTitle
    category := jsTrim t.category
    toolsCount := jsTrim t.toolsCount
    displayImage := jsTrim t.displayImage
    tools := t.tools }

/-- `cleanCourseData` on the course object assembled before a write: trim
every string value, recursively clean `toolsData`, keep numbers, arrays
and timestamp sentinels as they are, and skip absent fields. -/
def cleanCourseData (d : CourseDoc) : CourseDoc :=
  { d with
    _id := jsTrim d._id
    title := jsTrim d.title
    slug := jsTrim d.slug
    shortDescription := jsTrim d.shortDescription
    category := jsTrim d.category
    level := jsTrim d.level
    language := jsTrim d.language
    duration := jsTrim d.duration
    hours := jsTrim d.hours
    programBy := jsTrim d.programBy
    lastUpdated := jsTrim d.lastUpdated
    paymentLink := jsTrim d.paymentLink
    backgroundImage := jsTrim d.backgroundImage
    certificateImage := jsTrim d.certificateImage
    globalStatus := jsTrim d.globalStatus
    startDate := jsTrim d.startDate
    status := jsTrim d.status
    toolsData := d.toolsData.map cleanToolData }

/-! ## `createCourse` (courseService.ts lines 114–203) -/

/-- The `courseWithMetadata` object literal of `createCourse`: the spread
input overridden by generated metadata and per-field normalisations. -/
def courseWithMetadata (now : Nat) (nowIso : String) (courseId : String)
    (c : NewCourse) : CourseDoc :=
  { _id := courseId
    createdAt := some now
    updatedAt := some now
    status := strOr c.status "draft"
    rating := some (numOr0 c.rating)
    totalRatings := some (numOr0 c.totalRatings)
    enrolledStudents := some (numOr0 c.enrolledStudents)
    price := some (numOr0 c.price)
    originalPrice := some (numOr0 c.originalPrice)
    learningOutcomes := some (filterBlank (c.learningOutcomes.getD []))
    features := some (filterBlank (c.features.getD []))
    skills := some (filterBlank (c.skills.getD []))
    requirements := some (filterBlank (c.requirements.getD []))
    module := some (c.module.getD [])
    highlights := some (c.highlights.getD [])
    project := some (c.project.getD [])
    programFor := some (c.programFor.getD [])
    title := strTrimOr c.title ""
    slug := strOr (c.slug.map jsTrim) (strOr (c.title.map slugify) "")
    shortDescription := strTrimOr c.shortDescription ""
    category := strTrimOr c.category ""
    level := strOr c.level "beginner"
    language := strTrimOr c.language ""
    duration := strTrimOr c.duration ""
    hours := strTrimOr c.hours ""
    programBy := strTrimOr c.programBy "Admin"
    lastUpdated := strOr c.lastUpdated nowIso
    paymentLink := strTrimOr c.paymentLink ""
    backgroundImage := strTrimOr c.backgroundImage ""
    certificateImage := strTrimOr c.certificateImage ""
    globalStatus := strTrimOr c.globalStatus ""
    startDate := strTrimOr c.startDate ""
    toolsData := some (c.toolsData.getD defaultToolsData) }

/-- `createCourse`: validate; on failure return the combined message and
leave the collection unchanged; on success clean and `addDoc` the record
(prepended: newest first) and echo it back with local dates. -/
def createCourse (now : Nat) (nowIso : String) (freshId : String)
    (c : NewCourse) (db : DB) : CourseResponse × DB :=
  let v := validateCourseData c
  if v.isValid then
    let cleanedData := cleanCourseData (courseWithMetadata now nowIso freshId c)
    ({ success := true
       data := some { cleanedData with createdAt := some now, updatedAt := some now } },
     { docs := cleanedData :: db.docs })
  else
    ({ success := false
       error := some ("Validation failed: " ++ String.intercalate ", " v.errors) }, db)

/-! ## Read-side normalisation (courseService.ts lines 242–267 and
327–352; the two copies are character-for-character identical) -/

/-- The per-document mapping applied by `getAllCourses` and
`getCourseById`: convert timestamps (falling back to `new Date()`), coerce
the five numeric fields, default the eight array fields to `[]` and
`toolsData` to its default shape. -/
def normalizeRead (now : Nat) (d : CourseDoc) : CourseDoc :=
  { d with
    createdAt := some (d.createdAt.getD now)
    updatedAt := some (d.updatedAt.getD now)
    rating := some (numOr0 d.rating)
    totalRatings := some (numOr0 d.totalRatings)
    enrolledStudents := some (numOr0 d.enrolledStudents)
    price := some (numOr0 d.price)
    originalPrice := some (numOr0 d.originalPrice)
    learningOutcomes := some (d.learningOutcomes.getD [])
    features := some (d.features.getD [])
    skills := some (d.skills.getD [])
    requirements := some (d.requirements.getD [])
    module := some (d.module.getD [])
    highlights := some (d.highlights.getD [])
    project := some (d.project.getD [])
    programFor := some (d.programFor.getD [])
    toolsData := some (d.toolsData.getD defaultToolsData) }

/-! ## `getAllCourses` (courseService.ts lines 206–303) -/

/-- The options object of `getAllCourses`.  The declared TypeScript type
has no `level` key, but `searchCourses` spreads its own options (which do
carry `level`) into this object, so the runtime object may hold a `level`
value; the body never reads it. -/
structure GetAllOptions where
  pageSize : Option Nat := none
  status : Option String := none
  category : Option String := none
  searchTerm : Option String := none
  level : Option String := none
deriving Repr, DecidableEq

/-- The client-side search predicate of `getAllCourses`: case-insensitive
substring match over title, category, short description and author. -/
def matchesSearch (term : String) (course : CourseDoc) : Bool :=
  let searchLower := jsToLower term
  jsIncludes (jsToLower course.title) searchLower ||
  jsIncludes (jsToLower course.category) searchLower ||
  jsIncludes (jsToLower course.shortDescription) searchLower ||
  jsIncludes (jsToLower course.programBy) searchLower

/-- `getAllCourses`: equality filters on status and category (skipped for
falsy values), newest-first order, truthy page-size limit, per-document
normalisation, then the optional client-side search filter. -/
def getAllCourses (now : Nat) (options : GetAllOptions) (db : DB) : CoursesResponse :=
  let filtered := db.docs.filter (fun d =>
    (if truthyStr options.status then d.status == options.status.getD "" else true) &&
    (if truthyStr options.category then d.category == options.category.getD "" else true))
  let limited :=
    if truthyNat options.pageSize then filtered.take (options.pageSize.getD 0) else filtered
  let normalized := limited.map (normalizeRead now)
  let courses :=
    if truthyStr options.searchTerm then
      normalized.filter (matchesSearch (options.searchTerm.getD ""))
    else normalized
  { success := true
    data := some courses
    pagination := some { total := courses.length, page := 1, pages := 1 } }

/-! ## `getCourseById` (lines 306–366) and `getCourseBySlug` (lines
369–408) -/

/-- `getCourseById`: reject a blank identifier, look the identifier up as
a stored field, and normalise the first matching document. -/
def getCourseById (now : Nat) (courseId : String) (db : DB) : CourseResponse :=
  if jsTrim courseId = "" then
    { success := false, error := some "Course ID is required" }
  else
    match db.docs.find? (fun d => d._id == courseId) with
    | none => { success := false, error := some "Course not found" }
    | some d => { success := true, data := some (normalizeRead now d) }

/-- `getCourseBySlug`: same lookup by slug, but the document is returned
with only its timestamps converted — no array/number normalisation. -/
def getCourseBySlug (now : Nat) (slug : String) (db : DB) : CourseResponse :=
  if jsTrim slug = "" then
    { success := false, error := some "Course slug is required" }
  else
    match db.docs.find? (fun d => d.slug == slug) with
    | none => { success := false, error := some "Course not found" }
    | some d =>
      { success := true
        data := some { d with
          createdAt := some (d.createdAt.getD now)
          updatedAt := some (d.updatedAt.getD now) } }

/-- `getCoursesByCategory` (lines 721–765): category + published filter,
truthy page-size limit; documents are returned with only their timestamps
converted — no array/number normalisation. -/
def getCoursesByCategory (now : Nat) (category : String) (pageSize : Option Nat)
    (db : DB) : CoursesResponse :=
  if jsTrim category = "" then
    { success := false, error := some "Category is required" }
  else
    let filtered := db.docs.filter (fun d =>
      d.category == category && d.status == "published")
    let limited := if truthyNat pageSize then filtered.take (pageSize.getD 0) else filtered
    { success := true
      data := some (limited.map (fun d =>
        { d with
          createdAt := some (d.createdAt.getD now)
          updatedAt := some (d.updatedAt.getD now) })) }

/-! ## `updateCourse` (courseService.ts lines 411–524) -/

/-- The object validated when a partial update carries any of
title/short-description/category (lines 422–432): the supplied values with
placeholder defaults for the rest. -/
def updateValidationInput (p : NewCourse) : NewCourse :=
  { title := some (strOr p.title "temp")
    shortDescription := some (strOr p.shortDescription "temp")
    category := some (strOr p.category "temp")
    level := some (strOr p.level "beginner")
    language := some (strOr p.language "temp")
    duration := some (strOr p.duration "temp")
    hours := some (strOr p.hours "temp")
    price := some (numOr0 p.price)
    originalPrice := some (numOr0 p.originalPrice) }

/-- The effect on one stored string field of spreading a partial value
into `updateData` and then cleaning it (`cleanCourseData` trims it). -/
def updStr (v : Option String) (old : String) : String :=
  match v with
  | some s => jsTrim s
  | none => old

/-- The merged document written by `updateDoc`: present partial fields
(cleaned) override the stored ones, the update timestamp and
`lastUpdated` are re-stamped, the four free-text arrays are blank-filtered,
and the slug is regenerated when the partial carries a truthy title. -/
def applyUpdate (now : Nat) (nowIso : String) (p : NewCourse) (d : CourseDoc) : CourseDoc :=
  { d with
    updatedAt := some now
    lastUpdated := jsTrim nowIso
    title := updStr p.title d.title
    shortDescription := updStr p.shortDescription d.shortDescription
    category := updStr p.category d.category
    level := updStr p.level d.level
    language := updStr p.language d.language
    duration := updStr p.duration d.duration
    hours := updStr p.hours d.hours
    status := updStr p.status d.status
    programBy := updStr p.programBy d.programBy
    paymentLink := updStr p.paymentLink d.paymentLink
    backgroundImage := updStr p.backgroundImage d.backgroundImage
    certificateImage := updStr p.certificateImage d.certificateImage
    globalStatus := updStr p.globalStatus d.globalStatus
    startDate := updStr p.startDate d.startDate
    slug :=
      if truthyStr p.title then jsTrim (slugify (p.title.getD ""))
      else updStr p.slug d.slug
    rating := match p.rating with | some n => some n | none => d.rating
    totalRatings := match p.totalRatings with | some n => some n | none => d.totalRatings
    enrolledStudents := match p.enrolledStudents with | some n => some n | none => d.enrolledStudents
    price := match p.price with | some n => some n | none => d.price
    originalPrice := match p.originalPrice with | some n => some n | none => d.originalPrice
    learningOutcomes := match p.learningOutcomes with
      | some l => some (filterBlank l) | none => d.learningOutcomes
    features := match p.features with
      | some l => some (filterBlank l) | none => d.features
    skills := match p.skills with
      | some l => some (filterBlank l) | none => d.skills
    requirements := match p.requirements with
      | some l => some (filterBlank l) | none => d.requirements
    module := match p.module with | some l => some l | none => d.module
    highlights := match p.highlights with | some l => some l | none => d.highlights
    project := match p.project with | some l => some l | none => d.project
    programFor := match p.programFor with | some l => some l | none => d.programFor
    toolsData := match p.toolsData with | some t => some (cleanToolData t) | none => d.toolsData }

/-- The `{...courseData, _id, updatedAt}` fallback record `updateCourse`
echoes when the re-read after a successful write fails (unreachable in
this model: the updated document keeps its identifier, so the re-read
always succeeds). -/
def fallbackCourse (now : Nat) (courseId : String) (p : NewCourse) : CourseDoc :=
  { _id := courseId
    updatedAt := some now
    createdAt := none
    title := p.title.getD ""
    slug := p.slug.getD ""
    shortDescription := p.shortDescription.getD ""
    category := p.category.getD ""
    level := p.level.getD ""
    language := p.language.getD ""
    duration := p.duration.getD ""
    hours := p.hours.getD ""
    programBy := p.programBy.getD ""
    lastUpdated := p.lastUpdated.getD ""
    paymentLink := p.paymentLink.getD ""
    backgroundImage := p.backgroundImage.getD ""
    certificateImage := p.certificateImage.getD ""
    globalStatus := p.globalStatus.getD ""
    startDate := p.startDate.getD ""
    status := p.status.getD ""
    rating := p.rating
    totalRatings := p.totalRatings
    enrolledStudents := p.enrolledStudents
    price := p.price
    originalPrice := p.originalPrice
    learningOutcomes := p.learningOutcomes
    features := p.features
    skills := p.skills
    requirements := p.requirements
    module := p.module
    highlights := p.highlights
    project := p.project
    programFor := p.programFor
    toolsData := p.toolsData }

/-- `updateCourse`: reject a blank identifier; re-validate only when the
partial carries a truthy title, short description or category; look the
document up by identifier, merge-and-clean, write, and return the
re-read record. -/
def updateCourse (now : Nat) (nowIso : String) (courseId : String) (p : NewCourse)
    (db : DB) : CourseResponse × DB :=
  if jsTrim courseId = "" then
    ({ success := false, error := some "Course ID is required" }, db)
  else if (truthyStr p.title || truthyStr p.shortDescription || truthyStr p.category)
      && !(validateCourseData (updateValidationInput p)).isValid then
    ({ success := false
       error := some ("Validation failed: " ++
         String.intercalate ", " (validateCourseData (updateValidationInput p)).errors) }, db)
  else
    match db.docs.find? (fun d => d._id == courseId) with
    | none => ({ success := false, error := some "Course not found" }, db)
    | some d =>
      let updated := applyUpdate now nowIso p d
      let dbAfter : DB := { docs := setFirst (fun x => x._id == courseId) updated db.docs }
      let reread := getCourseById now courseId dbAfter
      if reread.success then (reread, dbAfter)
      else ({ success := true, data := some (fallbackCourse now courseId p) }, dbAfter)

/-! ## `deleteCourse` (lines 527–581) and `deleteCourses` (lines 584–628) -/

/-- The result shape of `deleteCourse`. -/
structure DeleteOutcome where
  success : Bool
  error : Option String := none
deriving Repr, DecidableEq

/-- The result shape of `deleteCourses`. -/
structure BulkDeleteOutcome where
  success : Bool
  error : Option String := none
  deletedCount : Option Nat := none
deriving Repr, DecidableEq

/-- `deleteCourse`: reject a blank identifier; fail when no document
matches; otherwise attempt best-effort deletion of the truthy background
and certificate image URLs and delete the first matching document.  The
third component records the image URLs for which a `deleteImage` call was
issued. -/
def deleteCourse (courseId : String) (db : DB) : DeleteOutcome × DB × List String :=
  if jsTrim courseId = "" then
    ({ success := false, error := some "Course ID is required" }, db, [])
  else
    match db.docs.find? (fun d => d._id == courseId) with
    | none => ({ success := false, error := some "Course not found" }, db, [])
    | some d =>
      let images :=
        (if d.backgroundImage ≠ "" then [d.backgroundImage] else []) ++
        (if d.certificateImage ≠ "" then [d.certificateImage] else [])
      ({ success := true },
       { docs := removeFirst (fun x => x._id == courseId) db.docs },
       images)

/-- `deleteCourses`: reject an empty request list; query each requested
identifier against the unmodified collection, collecting the reference of
the first match (one per iteration, so a duplicated identifier is counted
twice); fail when nothing was collected; otherwise commit the batch and
report the number of collected references. -/
def deleteCourses (courseIds : List String) (db : DB) : BulkDeleteOutcome × DB :=
  if courseIds.isEmpty then
    ({ success := false, error := some "Course IDs are required" }, db)
  else
    let refs := courseIds.filterMap (fun cid => findFirstIdx (fun d => d._id == cid) db.docs)
    if refs.length = 0 then
      ({ success := false, error := some "No courses found to delete" }, db)
    else
      ({ success := true, deletedCount := some refs.length },
       { docs := deleteRefsAux refs 0 db.docs })

/-! ## Image upload — `uploadImage` (lines 631–692) and the upload API
route (`src/unnamed/part_002`) -/

/-- A browser `File` as far as the upload code reads it. -/
structure UFile where
  name : String
  size : Nat
  type : String
deriving Repr, DecidableEq

/-- The MIME allow-list shared by `uploadImage` and the route. -/
def allowedTypes : List String :=
  ["image/jpeg", "image/jpg", "image/png", "image/webp", "image/gif"]

/-- One object written to storage: its path and content type. -/
structure StorageWrite where
  path : String
  contentType : String
deriving Repr, DecidableEq

/-- The JSON body and HTTP status returned by the upload route. -/
structure UploadApiResponse where
  status : Nat
  success : Bool
  url : Option String := none
  error : Option String := none
  filename : Option String := none
deriving Repr, DecidableEq

/-- The external SDK's `getDownloadURL`, modelled as a URL that embeds the
object path (as Firebase download URLs do). -/
def getDownloadURL (path : String) : String :=
  "https://firebasestorage.googleapis.com/o/" ++ path

/-- `name.split('.').pop()`: the final dot-separated segment — everything
after the last dot, or the whole name when it has no dot. -/
def lastDotSegment (s : String) : String :=
  String.mk ((s.data.reverse.takeWhile (fun ch => ch ≠ '.')).reverse)

/-- The generated object filename: timestamp, random suffix, and the
lower-cased final dot-segment of the original name (defaulting to jpg). -/
def uploadFilename (timestamp : Nat) (randomString : String) (originalName : String) : String :=
  let fileExtension := strOr (some (jsToLower (lastDotSegment originalName))) "jpg"
  Nat.repr timestamp ++ "_" ++ randomString ++ "." ++ fileExtension

/-- The `POST` handler of the upload route: missing-file, type and size
checks (in that order), then one storage write under
`folder/filename` and a 200 response carrying the download URL.
`Date.now()` and `Math.random()` are the explicit `timestamp` and
`randomString` parameters. -/
def uploadRoutePOST (timestamp : Nat) (randomString : String)
    (file : Option UFile) (folder : Option String) : UploadApiResponse × List StorageWrite :=
  let folderName := strOr folder "uploads"
  match file with
  | none => ({ status := 400, success := false, error := some "No file provided" }, [])
  | some f =>
    if ¬ allowedTypes.contains f.type then
      ({ status := 400, success := false, error := some "Invalid file type" }, [])
    else if f.size > 10 * 1024 * 1024 then
      ({ status := 400, success := false, error := some "File too large" }, [])
    else
      let filename := uploadFilename timestamp randomString f.name
      let path := folderName ++ "/" ++ filename
      ({ status := 200, success := true
         url := some (getDownloadURL path), filename := some filename },
       [{ path := path, contentType := f.type }])

/-- The result shape of `CourseService.uploadImage`. -/
structure UploadResult where
  success : Bool
  url : Option String := none
  error : Option String := none
deriving Repr, DecidableEq

/-- `CourseService.uploadImage`: client-side size check (10 MB) then MIME
check, then the POST to the upload route; a non-2xx response is surfaced
as a failure carrying the route's error message. -/
def uploadImage (timestamp : Nat) (randomString : String) (file : UFile)
    (path : String) : UploadResult × List StorageWrite :=
  if file.size > 10 * 1024 * 1024 then
    ({ success := false, error := some "File size must be less than 10MB" }, [])
  else if ¬ allowedTypes.contains file.type then
    ({ success := false
       error := some ("File type " ++ file.type ++
         " not allowed. Only JPEG, PNG, WebP, and GIF images are allowed") }, [])
  else
    let r := uploadRoutePOST timestamp randomString (some file) (some path)
    if 200 ≤ r.1.status && r.1.status < 300 then
      ({ success := true, url := r.1.url }, r.2)
    else
      ({ success := false, error := some ((r.1.error).getD "Upload failed") }, r.2)

/-! ## `searchCourses` (lines 784–807) and `duplicateCourse` (lines
904–941) -/

/-- The options object accepted by `searchCourses`; unlike the
`getAllCourses` options it also offers a `level` key. -/
structure SearchOptions where
  pageSize : Option Nat := none
  category : Option String := none
  level : Option String := none
  status : Option String := none
deriving Repr, DecidableEq

/-- The spread of the search options into the `getAllCourses` argument:
every key of the runtime object, `level` included, rides along. -/
def SearchOptions.toGetAll (o : SearchOptions) : GetAllOptions :=
  { pageSize := o.pageSize
    status := o.status
    category := o.category
    searchTerm := none
    level := o.level }

/-- `searchCourses`: a blank term delegates to `getAllCourses` as-is,
otherwise the trimmed term is added as the search term. -/
def searchCourses (now : Nat) (searchTerm : String) (options : SearchOptions)
    (db : DB) : CoursesResponse :=
  if jsTrim searchTerm = "" then
    getAllCourses now options.toGetAll db
  else
    getAllCourses now { options.toGetAll with searchTerm := some (jsTrim searchTerm) } db

/-- The `duplicatedCourse` object literal of `duplicateCourse`: all fields
copied from the source record except a fresh copy title
(`newTitle || title + " (Copy)"`), the slug regenerated from that title,
draft status, zeroed counters and a fresh `lastUpdated`; identifier and
timestamps are deleted before the delegate call. -/
def duplicatedCourse (nowIso : String) (newTitle : Option String)
    (course : CourseDoc) : NewCourse :=
  { title := some (strOr newTitle (course.title ++ " (Copy)"))
    slug := some (slugify (strOr newTitle (course.title ++ " (Copy)")))
    status := some "draft"
    enrolledStudents := some 0
    rating := some 0
    totalRatings := some 0
    lastUpdated := some nowIso
    shortDescription := some course.shortDescription
    category := some course.category
    level := some course.level
    language := some course.language
    duration := some course.duration
    hours := some course.hours
    programBy := some course.programBy
    paymentLink := some course.paymentLink
    backgroundImage := some course.backgroundImage
    certificateImage := some course.certificateImage
    globalStatus := some course.globalStatus
    startDate := some course.startDate
    price := course.price
    originalPrice := course.originalPrice
    learningOutcomes := course.learningOutcomes
    features := course.features
    skills := course.skills
    requirements := course.requirements
    module := course.module
    highlights := course.highlights
    project := course.project
    programFor := course.programFor
    toolsData := course.toolsData }

/-- `duplicateCourse`: read the source record, rebuild a payload with the
copy title, regenerated slug, draft status and zeroed counters (identifier
and timestamps dropped), and delegate to `createCourse`. -/
def duplicateCourse (now : Nat) (nowIso : String) (freshId : String)
    (courseId : String) (newTitle : Option String) (db : DB) : CourseResponse × DB :=
  let originalCourse := getCourseById now courseId db
  match originalCourse.data with
  | none =>
    ({ success := false
       error := some (originalCourse.error.getD "Original course not found") }, db)
  | some course =>
    createCourse now nowIso freshId (duplicatedCourse nowIso newTitle course) db

/-! ## Properties of the JS string helpers -/

theorem dropWhile_dropWhile (p : α → Bool) (l : List α) :
    (l.dropWhile p).dropWhile p = l.dropWhile p := by
  induction l with
  | nil => rfl
  | cons a l ih =>
    by_cases h : p a
    · simpa [List.dropWhile_cons_of_pos h] using ih
    · simp [List.dropWhile_cons_of_neg h]

theorem head?_dropWhile_not (p : α → Bool) (l : List α) :
    ∀ c, (l.dropWhile p).head? = some c → p c = false := by
  induction l with
  | nil => intro c h; simp at h
  | cons a l ih =>
    intro c h
    by_cases hp : p a
    · rw [List.dropWhile_cons_of_pos hp] at h
      exact ih c h
    · rw [List.dropWhile_cons_of_neg hp] at h
      simp only [List.head?_cons, Option.some.injEq] at h
      subst h
      simpa using hp

theorem dropWhile_eq_self_of_head (p : α → Bool) (l : List α)
    (h : ∀ c, l.head? = some c → p c = false) : l.dropWhile p = l := by
  cases l with
  | nil => rfl
  | cons a t =>
    rw [List.dropWhile_cons_of_neg]
    simp [h a rfl]

theorem dropTrailingWS_prefix (l : List Char) : dropTrailingWS l <+: l := by
  have h := List.dropWhile_suffix (l := l.reverse) Char.isWhitespace
  have h2 := List.reverse_prefix.mpr h
  simpa [dropTrailingWS] using h2

theorem head?_dropTrailingWS (l : List Char) (c : Char)
    (h : (dropTrailingWS l).head? = some c) : l.head? = some c := by
  obtain ⟨t, ht⟩ := dropTrailingWS_prefix l
  cases hd : dropTrailingWS l with
  | nil => rw [hd] at h; simp at h
  | cons x xs =>
    rw [hd] at h ht
    simp only [List.head?_cons, Option.some.injEq] at h
    subst h
    rw [← ht]
    simp

theorem dropWhile_dropTrailingWS (l : List Char)
    (hl : ∀ c, l.head? = some c → c.isWhitespace = false) :
    (dropTrailingWS l).dropWhile Char.isWhitespace = dropTrailingWS l := by
  refine dropWhile_eq_self_of_head _ _ ?_
  intro c hc
  exact hl c (head?_dropTrailingWS l c hc)

theorem dropTrailingWS_idem (l : List Char) :
    dropTrailingWS (dropTrailingWS l) = dropTrailingWS l := by
  simp [dropTrailingWS, List.reverse_reverse, dropWhile_dropWhile]

theorem jsTrim_idem (s : String) : jsTrim (jsTrim s) = jsTrim s := by
  show String.mk (dropTrailingWS (((dropTrailingWS
      (s.data.dropWhile Char.isWhitespace))).dropWhile Char.isWhitespace)) = _
  rw [dropWhile_dropTrailingWS _ (head?_dropWhile_not Char.isWhitespace s.data),
    dropTrailingWS_idem]
  rfl

theorem mem_of_head? {l : List α} {c : α} (h : l.head? = some c) : c ∈ l := by
  cases l with
  | nil => simp at h
  | cons a t =>
    simp only [List.head?_cons, Option.some.injEq] at h
    subst h
    exact List.mem_cons_self _ _

theorem jsTrim_eq_self (s : String)
    (hhead : ∀ c, s.data.head? = some c → c.isWhitespace = false)
    (hlast : ∀ c, s.data.getLast? = some c → c.isWhitespace = false) :
    jsTrim s = s := by
  show String.mk (dropTrailingWS (s.data.dropWhile Char.isWhitespace)) = s
  rw [dropWhile_eq_self_of_head _ _ hhead]
  unfold dropTrailingWS
  rw [dropWhile_eq_self_of_head _ _ (fun c hc => hlast c (by rwa [List.head?_reverse] at hc))]
  simp

theorem jsTrim_eq_self_of_all (s : String)
    (h : ∀ c ∈ s.data, c.isWhitespace = false) : jsTrim s = s := by
  refine jsTrim_eq_self s (fun c hc => h c ?_) (fun c hc => h c ?_)
  · exact mem_of_head? hc
  · rw [← List.head?_reverse] at hc
    exact List.mem_reverse.mp (mem_of_head? hc)

theorem isWhitespace_cases (c : Char) (h : c.isWhitespace = true) :
    c = ' ' ∨ c = '\t' ∨ c = '\r' ∨ c = '\n' := by
  simpa [Char.isWhitespace, or_assoc] using h

theorem slugChar_not_ws (c : Char) (h : slugChar c = true) : c.isWhitespace = false := by
  cases hw : c.isWhitespace
  · rfl
  · rcases isWhitespace_cases c hw with rfl | rfl | rfl | rfl <;>
      exact absurd h (by decide)

theorem mem_slugify_slugChar (s : String) : ∀ c ∈ (slugify s).data, slugChar c = true := by
  intro c hc
  exact List.of_mem_filter hc

theorem jsTrim_slugify (s : String) : jsTrim (slugify s) = slugify s :=
  jsTrim_eq_self_of_all _ (fun c hc => slugChar_not_ws c (mem_slugify_slugChar s c hc))

theorem jsTrim_empty : jsTrim "" = "" := rfl

theorem strTrimOr_clean (o : Option String) :
    jsTrim (strTrimOr o "") = jsTrim (o.getD "") := by
  cases o with
  | none => rfl
  | some s =>
    show jsTrim (if jsTrim s = "" then "" else jsTrim s) = jsTrim s
    by_cases h : jsTrim s = ""
    · simp [h, jsTrim_empty]
    · simp [h, jsTrim_idem]

theorem strTrimOr_clean_default (o : Option String) (d : String) :
    jsTrim (strTrimOr o d) =
      if jsTrim (o.getD "") = "" then jsTrim d else jsTrim (o.getD "") := by
  cases o with
  | none => simp [strTrimOr, strOr, jsTrim_empty]
  | some s =>
    show jsTrim (if jsTrim s = "" then d else jsTrim s) = _
    by_cases h : jsTrim s = ""
    · simp [h]
    · simp [h, jsTrim_idem]

/-! ## Shared concrete data for witnesses and counterexamples -/

/-- A fully-normalised stored document, as `createCourse` writes them. -/
def storedCourse : CourseDoc :=
  { _id := "course-1", title := "Original", slug := "original",
    shortDescription := "desc", category := "cat", level := "beginner",
    language := "en", duration := "4w", hours := "10", programBy := "Admin",
    lastUpdated := "2024-01-01", paymentLink := "", backgroundImage := "",
    certificateImage := "", globalStatus := "", startDate := "",
    status := "draft", rating := some 0, totalRatings := some 0,
    enrolledStudents := some 0, price := some 0, originalPrice := some 0,
    learningOutcomes := some [], features := some [], skills := some [],
    requirements := some [], module := some [], highlights := some [],
    project := some [], programFor := some [], toolsData := some defaultToolsData,
    createdAt := some 5, updatedAt := some 5 }

/-- A stored document whose optional fields are all absent, as an
externally-written document may be. -/
def rawDoc : CourseDoc :=
  { _id := "raw1", title := "Raw", slug := "raw-course", shortDescription := "d",
    category := "cat", level := "beginner", language := "en", duration := "4w",
    hours := "10", programBy := "Admin", lastUpdated := "2024-01-01",
    paymentLink := "", backgroundImage := "", certificateImage := "",
    globalStatus := "", startDate := "", status := "published",
    rating := none, totalRatings := none, enrolledStudents := none,
    price := none, originalPrice := none, learningOutcomes := none,
    features := none, skills := none, requirements := none, module := none,
    highlights := none, project := none, programFor := none, toolsData := none,
    createdAt := none, updatedAt := none }

/-- A validation-passing course input whose title carries surrounding
whitespace. -/
def sampleInput : NewCourse :=
  { title := some "  Physics 101  ", shortDescription := some "Mechanics",
    category := some "science", level := some "beginner", language := some "en",
    duration := some "6 weeks", hours := some "12",
    price := some 0, originalPrice := some 0 }

/-! ## C10 — `searchCourses` ignores the `level` option -/

/-- C10: for every search term and every pair of option sets differing
only in the `level` option, `searchCourses` returns the same result, and
likewise `getAllCourses` itself is insensitive to the `level` value riding
on its options object. -/
theorem searchCourses_level_irrelevant (now : Nat) (term : String)
    (pageSize : Option Nat) (category status lvl1 lvl2 : Option String)
    (searchTerm : Option String) (db : DB) :
    searchCourses now term
        { pageSize := pageSize, category := category, level := lvl1, status := status } db =
      searchCourses now term
        { pageSize := pageSize, category := category, level := lvl2, status := status } db ∧
    getAllCourses now
        { pageSize := pageSize, status := status, category := category,
          searchTerm := searchTerm, level := lvl1 } db =
      getAllCourses now
        { pageSize := pageSize, status := status, category := category,
          searchTerm := searchTerm, level := lvl2 } db :=
  ⟨rfl, rfl⟩

/-! ## C6 — `deleteCourse` on a missing identifier -/

/-- C6: when no stored document carries the requested identifier,
`deleteCourse` fails, leaves the collection unchanged, and issues no image
deletion; for a non-blank identifier the failure message is the not-found
one. -/
theorem deleteCourse_missing (courseId : String) (db : DB)
    (h : ∀ d ∈ db.docs, d._id ≠ courseId) :
    (deleteCourse courseId db).1.success = false ∧
    (deleteCourse courseId db).2.1 = db ∧
    (deleteCourse courseId db).2.2 = [] ∧
    (jsTrim courseId ≠ "" →
      (deleteCourse courseId db).1.error = some "Course not found") := by
  have hfind : db.docs.find? (fun d => d._id == courseId) = none := by
    apply List.find?_eq_none.mpr
    intro d hd
    simpa using h d hd
  by_cases hid : jsTrim courseId = ""
  · simp [deleteCourse, hid]
  · simp [deleteCourse, hid, hfind]

/-- Witness for C6 at a concrete identifier and collection. -/
theorem deleteCourse_missing_witness :
    (deleteCourse "missing-id" { docs := [storedCourse] }).1.success = false ∧
    (deleteCourse "missing-id" { docs := [storedCourse] }).2.1 = { docs := [storedCourse] } ∧
    (deleteCourse "missing-id" { docs := [storedCourse] }).2.2 = [] ∧
    (jsTrim "missing-id" ≠ "" →
      (deleteCourse "missing-id" { docs := [storedCourse] }).1.error = some "Course not found") :=
  deleteCourse_missing "missing-id" { docs := [storedCourse] } (by decide)

/-! ## C9 — upload validation and folder placement -/

/-- A 2 MB PNG file. -/
def pngFile : UFile :=
  { name := "photo.png", size := 2 * 1024 * 1024, type := "image/png" }

/-- A 12 MB PDF-typed file. -/
def pdfFile : UFile :=
  { name := "big.pdf", size := 12 * 1024 * 1024, type := "application/pdf" }

/-- C9: `uploadImage` rejects every oversized file and every file with a
MIME type outside the allow-list before any storage write, and accepts a
2 MB PNG, storing it under the caller-chosen folder so that the returned
URL contains that folder segment. -/
theorem uploadImage_validation :
    (∀ (ts : Nat) (rs : String) (f : UFile) (p : String),
      10 * 1024 * 1024 < f.size ∨ allowedTypes.contains f.type = false →
      (uploadImage ts rs f p).1.success = false ∧ (uploadImage ts rs f p).2 = []) ∧
    (uploadImage 1700000 "k3xyz" pngFile "course-images").1 =
      { success := true
        url := some "https://firebasestorage.googleapis.com/o/course-images/1700000_k3xyz.png" } ∧
    (uploadImage 1700000 "k3xyz" pngFile "course-images").2 =
      [{ path := "course-images/1700000_k3xyz.png", contentType := "image/png" }] ∧
    jsIncludes
      "https://firebasestorage.googleapis.com/o/course-images/1700000_k3xyz.png"
      "/course-images/" = true := by
  refine ⟨?_, by decide, by decide, by decide⟩
  intro ts rs f p h
  by_cases hs : 10 * 1024 * 1024 < f.size
  · simp [uploadImage, hs]
  · rcases h with h | h
    · exact absurd h hs
    · have hmem : f.type ∉ allowedTypes := by simpa using h
      simp [uploadImage, hs, hmem]

/-- Witness for C9: a 12 MB PDF-typed file is rejected with no write. -/
theorem uploadImage_validation_witness :
    (uploadImage 1 "r" pdfFile "course-images").1.success = false ∧
    (uploadImage 1 "r" pdfFile "course-images").2 = [] :=
  uploadImage_validation.1 1 "r" pdfFile "course-images" (Or.inl (by norm_num [pdfFile]))

/-! ## C3 — `createCourse` aggregates every violated validation rule -/

theorem mem_ite_nil {b : Prop} [Decidable b] {a : α} {l : List α} :
    (a ∈ if b then l else []) ↔ b ∧ a ∈ l := by
  by_cases h : b <;> simp [h]

/-- C3: an input violating validation makes `createCourse` fail without a
write, with the combined message over the collected error list, and that
list contains the message of a rule exactly when the rule is violated —
every violated rule is listed, not only the first. -/
theorem createCourse_lists_all_violations (now : Nat) (nowIso freshId : String)
    (c : NewCourse) (db : DB)
    (h : (validateCourseData c).isValid = false) :
    (createCourse now nowIso freshId c db).1.success = false ∧
    (createCourse now nowIso freshId c db).2 = db ∧
    (createCourse now nowIso freshId c db).1.error =
      some ("Validation failed: " ++
        String.intercalate ", " (validateCourseData c).errors) ∧
    (("Title is required" ∈ (validateCourseData c).errors) ↔ blankOpt c.title = true) ∧
    (("Short description is required" ∈ (validateCourseData c).errors) ↔
      blankOpt c.shortDescription = true) ∧
    (("Category is required" ∈ (validateCourseData c).errors) ↔ blankOpt c.category = true) ∧
    (("Valid level is required (beginner, intermediate, or advanced)" ∈
        (validateCourseData c).errors) ↔ levelBad c.level = true) ∧
    (("Language is required" ∈ (validateCourseData c).errors) ↔ blankOpt c.language = true) ∧
    (("Duration is required" ∈ (validateCourseData c).errors) ↔ blankOpt c.duration = true) ∧
    (("Hours is required" ∈ (validateCourseData c).errors) ↔ blankOpt c.hours = true) ∧
    (("Price must be a valid number (0 or greater)" ∈ (validateCourseData c).errors) ↔
      badNum c.price = true) ∧
    (("Original price must be a valid number (0 or greater)" ∈
        (validateCourseData c).errors) ↔ badNum c.originalPrice = true) ∧
    (("Price cannot be greater than original price" ∈ (validateCourseData c).errors) ↔
      (numGtZero c.originalPrice && numGt c.price c.originalPrice) = true) := by
  refine ⟨by simp [createCourse, h], by simp [createCourse, h], by simp [createCourse, h],
    ?_, ?_, ?_, ?_, ?_, ?_, ?_, ?_, ?_, ?_⟩ <;>
    simp [validateCourseData, List.mem_append, mem_ite_nil]

/-- Witness for C3: the empty input violates nine rules and the error list
carries all nine messages. -/
theorem createCourse_lists_all_violations_witness :
    (createCourse 0 "2024-01-01" "uuid-1" {} { docs := [] }).1.success = false ∧
    (createCourse 0 "2024-01-01" "uuid-1" {} { docs := [] }).2 = { docs := [] } ∧
    (createCourse 0 "2024-01-01" "uuid-1" {} { docs := [] }).1.error =
      some ("Validation failed: " ++
        String.intercalate ", " (validateCourseData {}).errors) ∧
    (("Title is required" ∈ (validateCourseData {}).errors) ↔ blankOpt ({} : NewCourse).title = true) ∧
    (("Short description is required" ∈ (validateCourseData {}).errors) ↔
      blankOpt ({} : NewCourse).shortDescription = true) ∧
    (("Category is required" ∈ (validateCourseData {}).errors) ↔
      blankOpt ({} : NewCourse).category = true) ∧
    (("Valid level is required (beginner, intermediate, or advanced)" ∈
        (validateCourseData {}).errors) ↔ levelBad ({} : NewCourse).level = true) ∧
    (("Language is required" ∈ (validateCourseData {}).errors) ↔
      blankOpt ({} : NewCourse).language = true) ∧
    (("Duration is required" ∈ (validateCourseData {}).errors) ↔
      blankOpt ({} : NewCourse).duration = true) ∧
    (("Hours is required" ∈ (validateCourseData {}).errors) ↔
      blankOpt ({} : NewCourse).hours = true) ∧
    (("Price must be a valid number (0 or greater)" ∈ (validateCourseData {}).errors) ↔
      badNum ({} : NewCourse).price = true) ∧
    (("Original price must be a valid number (0 or greater)" ∈
        (validateCourseData {}).errors) ↔ badNum ({} : NewCourse).originalPrice = true) ∧
    (("Price cannot be greater than original price" ∈ (validateCourseData {}).errors) ↔
      (numGtZero ({} : NewCourse).originalPrice &&
        numGt ({} : NewCourse).price ({} : NewCourse).originalPrice) = true) :=
  createCourse_lists_all_violations 0 "2024-01-01" "uuid-1" {} { docs := [] } (by decide)

/-! ## C2 — presence of list and numeric fields on read results -/

/-- All eight list-typed fields are present (as possibly empty arrays). -/
def listsPresent (d : CourseDoc) : Bool :=
  d.learningOutcomes.isSome && d.features.isSome && d.skills.isSome &&
  d.requirements.isSome && d.module.isSome && d.highlights.isSome &&
  d.project.isSome && d.programFor.isSome

/-- All five numeric fields are present as numbers. -/
def numbersPresent (d : CourseDoc) : Bool :=
  d.rating.isSome && d.totalRatings.isSome && d.enrolledStudents.isSome &&
  d.price.isSome && d.originalPrice.isSome

theorem normalizeRead_present (now : Nat) (d : CourseDoc) :
    listsPresent (normalizeRead now d) = true ∧
    numbersPresent (normalizeRead now d) = true := by
  simp [listsPresent, numbersPresent, normalizeRead]

/-- C2 (amended): every record returned by `getAllCourses` or
`getCourseById` has all list-typed fields present as arrays and all
numeric fields present as numbers; the invariant does not extend to
`getCourseBySlug` and `getCoursesByCategory`, which return the stored
shape unchanged. -/
theorem read_result_fields_present (now : Nat) (options : GetAllOptions)
    (courseId : String) (db : DB) :
    (∀ courses, (getAllCourses now options db).data = some courses →
      ∀ rec ∈ courses, listsPresent rec = true ∧ numbersPresent rec = true) ∧
    (∀ rec, (getCourseById now courseId db).data = some rec →
      listsPresent rec = true ∧ numbersPresent rec = true) := by
  constructor
  · intro courses hc rec hrec
    simp only [getAllCourses] at hc
    by_cases hterm : truthyStr options.searchTerm = true
    · rw [if_pos hterm, Option.some.injEq] at hc
      subst hc
      have := List.mem_filter.mp hrec
      obtain ⟨d, _, rfl⟩ := List.mem_map.mp this.1
      exact normalizeRead_present now d
    · rw [if_neg hterm, Option.some.injEq] at hc
      subst hc
      obtain ⟨d, _, rfl⟩ := List.mem_map.mp hrec
      exact normalizeRead_present now d
  · intro rec hrec
    unfold getCourseById at hrec
    by_cases hid : jsTrim courseId = ""
    · simp [hid] at hrec
    · rw [if_neg hid] at hrec
      cases hfind : db.docs.find? (fun d => d._id == courseId) with
      | none => rw [hfind] at hrec; simp at hrec
      | some d =>
        rw [hfind] at hrec
        simp only [Option.some.injEq] at hrec
        rw [← hrec]
        exact normalizeRead_present now d

/-- Witness for C2's amended theorem: the ill-shaped stored document comes
back from `getCourseById` with every list and numeric field present. -/
theorem read_result_fields_present_witness :
    (getCourseById 0 "raw1" { docs := [rawDoc] }).data = some (normalizeRead 0 rawDoc) ∧
    listsPresent (normalizeRead 0 rawDoc) = true ∧
    numbersPresent (normalizeRead 0 rawDoc) = true :=
  ⟨by decide,
   (read_result_fields_present 0 {} "raw1" { docs := [rawDoc] }).2
     (normalizeRead 0 rawDoc) (by decide)⟩

/-- Counterexample to C2 as stated: `getCourseBySlug` is a read operation,
yet on a stored document with absent array and numeric fields it returns a
record whose `skills` field is absent and whose list/numeric fields are
not all present. -/
theorem getCourseBySlug_returns_missing_fields :
    (getCourseBySlug 0 "raw-course" { docs := [rawDoc] }).success = true ∧
    ((getCourseBySlug 0 "raw-course" { docs := [rawDoc] }).data.map
      (fun r => r.skills)) = some none ∧
    ((getCourseBySlug 0 "raw-course" { docs := [rawDoc] }).data.map listsPresent) =
      some false ∧
    ((getCourseBySlug 0 "raw-course" { docs := [rawDoc] }).data.map numbersPresent) =
      some false := by decide

/-! ## C4 — slugs on title updates -/

theorem find?_setFirst (p : α → Bool) (x d : α) (l : List α) (hx : p x = true)
    (hfound : l.find? p = some d) : (setFirst p x l).find? p = some x := by
  induction l with
  | nil => simp [List.find?] at hfound
  | cons a t ih =>
    by_cases h : p a
    · simp [setFirst, h, List.find?_cons, hx]
    · rw [List.find?_cons_of_neg _ h] at hfound
      simp [setFirst, h, List.find?_cons_of_neg, ih hfound]

/-- Counterexample to C4 as stated: a partial update that includes the
title `""` leaves the stored slug untouched, while the claim demands the
slug of the (empty) title. -/
theorem updateCourse_empty_title_keeps_slug :
    (updateCourse 9 "2024-02-02" "course-1" { title := some "" }
        { docs := [storedCourse] }).1.success = true ∧
    ((updateCourse 9 "2024-02-02" "course-1" { title := some "" }
        { docs := [storedCourse] }).1.data.map (fun r => r.slug)) = some "original" ∧
    slugify "" = "" ∧ ("original" : String) ≠ "" := by decide

/-- C4 (amended): a partial update carrying a non-empty title writes and
returns a record whose slug is the slugified new title: lower-cased,
whitespace runs replaced by hyphens, all other characters outside
`[a-z0-9-]` removed. -/
theorem updateCourse_title_regenerates_slug (now : Nat) (nowIso courseId t : String)
    (p : NewCourse) (db : DB) (ht : p.title = some t) (hne : t ≠ "")
    (hs : (updateCourse now nowIso courseId p db).1.success = true) :
    ∃ rec, (updateCourse now nowIso courseId p db).1.data = some rec ∧
      rec.slug = slugify t := by
  unfold updateCourse at hs ⊢
  by_cases hid : jsTrim courseId = ""
  · simp [hid] at hs
  · rw [if_neg hid] at hs ⊢
    by_cases hv : ((truthyStr p.title || truthyStr p.shortDescription ||
        truthyStr p.category) && !(validateCourseData (updateValidationInput p)).isValid) = true
    · rw [if_pos hv] at hs; simp at hs
    · rw [if_neg hv] at hs ⊢
      cases hfind : db.docs.find? (fun d => d._id == courseId) with
      | none => rw [hfind] at hs; simp at hs
      | some d =>
        have hpid : (applyUpdate now nowIso p d)._id == courseId := by
          have := List.find?_some hfind
          simpa [applyUpdate] using this
        have hre : (setFirst (fun x => x._id == courseId) (applyUpdate now nowIso p d)
            db.docs).find? (fun x => x._id == courseId) =
            some (applyUpdate now nowIso p d) :=
          find?_setFirst _ _ d db.docs hpid hfind
        have hslug : (applyUpdate now nowIso p d).slug = slugify t := by
          have htruthy : truthyStr (some t) = true := by simp [truthyStr, hne]
          simp [applyUpdate, ht, htruthy, jsTrim_slugify]
        refine ⟨normalizeRead now (applyUpdate now nowIso p d), ?_, ?_⟩
        · simp [getCourseById, hid, hre]
        · simpa [normalizeRead] using hslug

/-- Witness for C4 at a concrete update. -/
theorem updateCourse_title_regenerates_slug_witness :
    ∃ rec, (updateCourse 9 "2024-02-02" "course-1" { title := some "Intro to Go!" }
        { docs := [storedCourse] }).1.data = some rec ∧
      rec.slug = slugify "Intro to Go!" :=
  updateCourse_title_regenerates_slug 9 "2024-02-02" "course-1" "Intro to Go!"
    { title := some "Intro to Go!" } { docs := [storedCourse] } rfl (by decide) (by decide)

/-! ## C5 — partial updates of non-required fields -/

theorem map_setFirst_of_find? (p : α → Bool) (f : α → β) (l : List α) (d x : α)
    (hfound : l.find? p = some d) (hf : f x = f d) :
    (setFirst p x l).map f = l.map f := by
  induction l with
  | nil => rfl
  | cons a t ih =>
    by_cases hp : p a
    · rw [List.find?_cons_of_pos _ hp] at hfound
      simp only [Option.some.injEq] at hfound
      subst hfound
      simp [setFirst, hp, hf]
    · rw [List.find?_cons_of_neg _ hp] at hfound
      simp [setFirst, hp, ih hfound]

/-- Counterexample to C5 as stated: a partial update carrying none of
title, short description or category — but carrying a `slug` — changes the
stored slug. -/
theorem updateCourse_partial_changes_slug :
    (({ slug := some "hacked" } : NewCourse).title = none ∧
     ({ slug := some "hacked" } : NewCourse).shortDescription = none ∧
     ({ slug := some "hacked" } : NewCourse).category = none) ∧
    ((updateCourse 9 "2024-02-02" "course-1" { slug := some "hacked" }
        { docs := [storedCourse] }).2.docs.map (fun r => r.slug)) = ["hacked"] ∧
    storedCourse.slug = "original" ∧ ("hacked" : String) ≠ "original" := by decide

/-- C5 (amended): a partial update carrying none of title, short
description or category — and no slug either — never fails validation (its
only failure messages are the blank-identifier and not-found ones) and
leaves the slug of every stored document unchanged. -/
theorem updateCourse_nonrequired_frame (now : Nat) (nowIso courseId : String)
    (p : NewCourse) (db : DB) (h1 : p.title = none) (h2 : p.shortDescription = none)
    (h3 : p.category = none) (h4 : p.slug = none) :
    ((updateCourse now nowIso courseId p db).2.docs.map (fun d => d.slug)) =
      db.docs.map (fun d => d.slug) ∧
    (∀ e, (updateCourse now nowIso courseId p db).1.error = some e →
      e = "Course ID is required" ∨ e = "Course not found") := by
  have hgate : (truthyStr p.title || truthyStr p.shortDescription ||
      truthyStr p.category) = false := by
    simp [truthyStr, h1, h2, h3]
  unfold updateCourse
  by_cases hid : jsTrim courseId = ""
  · simp [hid]
  · rw [if_neg hid, hgate]
    simp only [Bool.false_and, Bool.false_eq_true, if_false]
    cases hfind : db.docs.find? (fun d => d._id == courseId) with
    | none => simp
    | some d =>
      have hslug : (applyUpdate now nowIso p d).slug = d.slug := by
        simp [applyUpdate, truthyStr, h1, h4, updStr]
      have hmap := map_setFirst_of_find? (fun x => x._id == courseId)
        (fun x => x.slug) db.docs d (applyUpdate now nowIso p d) hfind hslug
      have hpid : (applyUpdate now nowIso p d)._id == courseId := by
        have := List.find?_some hfind
        simpa [applyUpdate] using this
      have hre : (setFirst (fun x => x._id == courseId) (applyUpdate now nowIso p d)
          db.docs).find? (fun x => x._id == courseId) =
          some (applyUpdate now nowIso p d) :=
        find?_setFirst _ _ d db.docs hpid hfind
      constructor
      · simpa [getCourseById, hid, hre] using hmap
      · intro e he
        simp [getCourseById, hid, hre] at he

/-- Witness for C5: updating only the payment link touches neither
validation nor any stored slug. -/
theorem updateCourse_nonrequired_frame_witness :
    ((updateCourse 9 "2024-02-02" "course-1" { paymentLink := some "https://pay" }
        { docs := [storedCourse] }).2.docs.map (fun d => d.slug)) =
      ({ docs := [storedCourse] } : DB).docs.map (fun d => d.slug) ∧
    (∀ e, (updateCourse 9 "2024-02-02" "course-1" { paymentLink := some "https://pay" }
        { docs := [storedCourse] }).1.error = some e →
      e = "Course ID is required" ∨ e = "Course not found") :=
  updateCourse_nonrequired_frame 9 "2024-02-02" "course-1"
    { paymentLink := some "https://pay" } { docs := [storedCourse] } rfl rfl rfl rfl

/-! ## C1 — `createCourse` then `getCourseById` round-trip -/

theorem ite_singleton_eq_nil {b : Prop} [Decidable b] {x : α} :
    ((if b then [x] else []) = []) ↔ ¬ b := by
  by_cases h : b <;> simp [h]

theorem valid_flags (c : NewCourse) (h : (validateCourseData c).isValid = true) :
    blankOpt c.title = false ∧ blankOpt c.shortDescription = false ∧
    blankOpt c.category = false ∧ levelBad c.level = false ∧
    blankOpt c.language = false ∧ blankOpt c.duration = false ∧
    blankOpt c.hours = false ∧ badNum c.price = false ∧
    badNum c.originalPrice = false := by
  simp only [validateCourseData, List.isEmpty_iff, List.append_eq_nil,
    ite_singleton_eq_nil, Bool.not_eq_true] at h
  tauto

theorem valid_of_flags (c : NewCourse) (h1 : blankOpt c.title = false)
    (h2 : blankOpt c.shortDescription = false) (h3 : blankOpt c.category = false)
    (h4 : levelBad c.level = false) (h5 : blankOpt c.language = false)
    (h6 : blankOpt c.duration = false) (h7 : blankOpt c.hours = false)
    (h8 : badNum c.price = false) (h9 : badNum c.originalPrice = false)
    (h10 : (numGtZero c.originalPrice && numGt c.price c.originalPrice) = false) :
    (validateCourseData c).isValid = true := by
  simp [validateCourseData, h1, h2, h3, h4, h5, h6, h7, h8, h9, h10]

theorem jsTrim_strOr (o : Option String) (d : String) (hd : jsTrim d = d) :
    jsTrim (strOr o d) = if o.getD "" = "" then d else jsTrim (o.getD "") := by
  cases o with
  | none => simp [strOr, hd]
  | some s =>
    by_cases h : s = ""
    · simp [strOr, h, hd]
    · simp [strOr, h]

theorem slug_fallback_clean (o : Option String) :
    jsTrim (strOr (o.map slugify) "") = strOr (o.map slugify) "" := by
  cases o with
  | none => rfl
  | some t =>
    show jsTrim (if slugify t = "" then "" else slugify t) =
      (if slugify t = "" then "" else slugify t)
    by_cases h : slugify t = ""
    · rw [if_pos h]
      rfl
    · rw [if_neg h]
      exact jsTrim_slugify t

theorem slug_clean (c : NewCourse) :
    jsTrim (strOr (c.slug.map jsTrim) (strOr (c.title.map slugify) "")) =
      strOr (c.slug.map jsTrim) (strOr (c.title.map slugify) "") := by
  cases hs : c.slug with
  | none => exact slug_fallback_clean c.title
  | some s =>
    show jsTrim (if jsTrim s = "" then strOr (c.title.map slugify) "" else jsTrim s) =
      (if jsTrim s = "" then strOr (c.title.map slugify) "" else jsTrim s)
    by_cases h : jsTrim s = ""
    · rw [if_pos h]
      exact slug_fallback_clean c.title
    · rw [if_neg h]
      exact jsTrim_idem s

theorem level_of_not_bad (o : Option String) (h : levelBad o = false) :
    strOr o "beginner" = o.getD "" ∧ jsTrim (o.getD "") = o.getD "" := by
  cases o with
  | none => simp [levelBad] at h
  | some s =>
    simp only [levelBad, Bool.or_eq_false_iff, decide_eq_false_iff_not,
      Bool.not_eq_false'] at h
    obtain ⟨hne, hmem⟩ := h
    have hmem2 : s = "beginner" ∨ s = "intermediate" ∨ s = "advanced" := by
      simpa using hmem
    constructor
    · simp [strOr, hne]
    · rcases hmem2 with rfl | rfl | rfl <;> decide

/-- C1 (amended): for every validation-passing input, `createCourse`
succeeds and a `getCourseById` with the generated identifier returns the
record back; each field equals the input's except the generated
identifier, slug and timestamps and the normalisations: numeric fields
coerced, absent arrays made empty, blank entries dropped from the four
free-text arrays, status defaulted to draft, every string field trimmed,
`programBy` defaulted to Admin, `lastUpdated` defaulted to the current ISO
time, and `toolsData` defaulted and cleaned. -/
theorem create_then_getById (now : Nat) (nowIso freshId : String) (c : NewCourse)
    (db : DB) (hval : (validateCourseData c).isValid = true)
    (hne : freshId ≠ "") (hid : jsTrim freshId = freshId)
    (hiso : jsTrim nowIso = nowIso)
    (hfresh : ∀ d ∈ db.docs, d._id ≠ freshId) :
    (createCourse now nowIso freshId c db).1.success = true ∧
    ∃ rec, getCourseById now freshId (createCourse now nowIso freshId c db).2 =
        { success := true, data := some rec, error := none } ∧
      rec._id = freshId ∧
      rec.createdAt = some now ∧ rec.updatedAt = some now ∧
      rec.slug = strOr (c.slug.map jsTrim) (strOr (c.title.map slugify) "") ∧
      rec.status = (if c.status.getD "" = "" then "draft" else jsTrim (c.status.getD "")) ∧
      rec.rating = some (numOr0 c.rating) ∧
      rec.totalRatings = some (numOr0 c.totalRatings) ∧
      rec.enrolledStudents = some (numOr0 c.enrolledStudents) ∧
      rec.price = some (numOr0 c.price) ∧
      rec.originalPrice = some (numOr0 c.originalPrice) ∧
      rec.learningOutcomes = some (filterBlank (c.learningOutcomes.getD [])) ∧
      rec.features = some (filterBlank (c.features.getD [])) ∧
      rec.skills = some (filterBlank (c.skills.getD [])) ∧
      rec.requirements = some (filterBlank (c.requirements.getD [])) ∧
      rec.module = some (c.module.getD []) ∧
      rec.highlights = some (c.highlights.getD []) ∧
      rec.project = some (c.project.getD []) ∧
      rec.programFor = some (c.programFor.getD []) ∧
      rec.title = jsTrim (c.title.getD "") ∧
      rec.shortDescription = jsTrim (c.shortDescription.getD "") ∧
      rec.category = jsTrim (c.category.getD "") ∧
      rec.level = c.level.getD "" ∧
      rec.language = jsTrim (c.language.getD "") ∧
      rec.duration = jsTrim (c.duration.getD "") ∧
      rec.hours = jsTrim (c.hours.getD "") ∧
      rec.programBy = (if jsTrim (c.programBy.getD "") = "" then "Admin"
        else jsTrim (c.programBy.getD "")) ∧
      rec.lastUpdated = (if c.lastUpdated.getD "" = "" then nowIso
        else jsTrim (c.lastUpdated.getD "")) ∧
      rec.paymentLink = jsTrim (c.paymentLink.getD "") ∧
      rec.backgroundImage = jsTrim (c.backgroundImage.getD "") ∧
      rec.certificateImage = jsTrim (c.certificateImage.getD "") ∧
      rec.globalStatus = jsTrim (c.globalStatus.getD "") ∧
      rec.startDate = jsTrim (c.startDate.getD "") ∧
      rec.toolsData = some (cleanToolData (c.toolsData.getD defaultToolsData)) := by
  obtain ⟨f1, f2, f3, f4, f5, f6, f7, f8, f9⟩ := valid_flags c hval
  have hlev := level_of_not_bad c.level f4
  have hne2 : ¬ (jsTrim freshId = "") := by rw [hid]; exact hne
  have hdb2 : (createCourse now nowIso freshId c db).2 =
      { docs := cleanCourseData (courseWithMetadata now nowIso freshId c) :: db.docs } := by
    simp [createCourse, hval]
  have hcid : (cleanCourseData (courseWithMetadata now nowIso freshId c))._id = freshId := hid
  have hkey : getCourseById now freshId
      { docs := cleanCourseData (courseWithMetadata now nowIso freshId c) :: db.docs } =
      { success := true
        data := some (normalizeRead now
          (cleanCourseData (courseWithMetadata now nowIso freshId c)))
        error := none } := by
    unfold getCourseById
    rw [if_neg hne2, List.find?_cons_of_pos _ (by rw [hcid]; simp)]
  refine ⟨by simp [createCourse, hval], ?_⟩
  refine ⟨normalizeRead now (cleanCourseData (courseWithMetadata now nowIso freshId c)),
    by rw [hdb2, hkey], hid, rfl, rfl, slug_clean c,
    jsTrim_strOr c.status "draft" (by decide), rfl, rfl, rfl, rfl, rfl,
    rfl, rfl, rfl, rfl, rfl, rfl, rfl, rfl,
    strTrimOr_clean c.title, strTrimOr_clean c.shortDescription,
    strTrimOr_clean c.category, ?_, strTrimOr_clean c.language,
    strTrimOr_clean c.duration, strTrimOr_clean c.hours,
    strTrimOr_clean_default c.programBy "Admin",
    jsTrim_strOr c.lastUpdated nowIso hiso,
    strTrimOr_clean c.paymentLink, strTrimOr_clean c.backgroundImage,
    strTrimOr_clean c.certificateImage, strTrimOr_clean c.globalStatus,
    strTrimOr_clean c.startDate, rfl⟩
  show jsTrim (strOr c.level "beginner") = c.level.getD ""
  rw [hlev.1]
  exact hlev.2

/-- Witness for C1 at a concrete validation-passing input. -/
theorem create_then_getById_witness :
    (createCourse 100 "2024-01-01T00:00:00.000Z" "uuid-1" sampleInput
      { docs := [] }).1.success = true ∧
    ∃ rec, getCourseById 100 "uuid-1"
        (createCourse 100 "2024-01-01T00:00:00.000Z" "uuid-1" sampleInput
          { docs := [] }).2 =
        { success := true, data := some rec, error := none } ∧
      rec._id = "uuid-1" ∧
      rec.createdAt = some 100 ∧ rec.updatedAt = some 100 ∧
      rec.slug = strOr (sampleInput.slug.map jsTrim)
        (strOr (sampleInput.title.map slugify) "") ∧
      rec.status = (if sampleInput.status.getD "" = "" then "draft"
        else jsTrim (sampleInput.status.getD "")) ∧
      rec.rating = some (numOr0 sampleInput.rating) ∧
      rec.totalRatings = some (numOr0 sampleInput.totalRatings) ∧
      rec.enrolledStudents = some (numOr0 sampleInput.enrolledStudents) ∧
      rec.price = some (numOr0 sampleInput.price) ∧
      rec.originalPrice = some (numOr0 sampleInput.originalPrice) ∧
      rec.learningOutcomes = some (filterBlank (sampleInput.learningOutcomes.getD [])) ∧
      rec.features = some (filterBlank (sampleInput.features.getD [])) ∧
      rec.skills = some (filterBlank (sampleInput.skills.getD [])) ∧
      rec.requirements = some (filterBlank (sampleInput.requirements.getD [])) ∧
      rec.module = some (sampleInput.module.getD []) ∧
      rec.highlights = some (sampleInput.highlights.getD []) ∧
      rec.project = some (sampleInput.project.getD []) ∧
      rec.programFor = some (sampleInput.programFor.getD []) ∧
      rec.title = jsTrim (sampleInput.title.getD "") ∧
      rec.shortDescription = jsTrim (sampleInput.shortDescription.getD "") ∧
      rec.category = jsTrim (sampleInput.category.getD "") ∧
      rec.level = sampleInput.level.getD "" ∧
      rec.language = jsTrim (sampleInput.language.getD "") ∧
      rec.duration = jsTrim (sampleInput.duration.getD "") ∧
      rec.hours = jsTrim (sampleInput.hours.getD "") ∧
      rec.programBy = (if jsTrim (sampleInput.programBy.getD "") = "" then "Admin"
        else jsTrim (sampleInput.programBy.getD "")) ∧
      rec.lastUpdated = (if sampleInput.lastUpdated.getD "" = ""
        then "2024-01-01T00:00:00.000Z"
        else jsTrim (sampleInput.lastUpdated.getD "")) ∧
      rec.paymentLink = jsTrim (sampleInput.paymentLink.getD "") ∧
      rec.backgroundImage = jsTrim (sampleInput.backgroundImage.getD "") ∧
      rec.certificateImage = jsTrim (sampleInput.certificateImage.getD "") ∧
      rec.globalStatus = jsTrim (sampleInput.globalStatus.getD "") ∧
      rec.startDate = jsTrim (sampleInput.startDate.getD "") ∧
      rec.toolsData = some (cleanToolData (sampleInput.toolsData.getD defaultToolsData)) :=
  create_then_getById 100 "2024-01-01T00:00:00.000Z" "uuid-1" sampleInput
    { docs := [] } (by decide) (by decide) (by decide) (by decide)
    (by intro d hd; simp at hd)

/-- Counterexample to C1 as stated: a validation-passing input whose title
carries surrounding whitespace comes back with the title trimmed — a field
that is none of the stated exceptions (identifier, slug, timestamps,
numeric coercion, array defaulting, status default). -/
theorem create_then_getById_trims_title :
    (validateCourseData sampleInput).isValid = true ∧
    ((getCourseById 100 "uuid-1"
        (createCourse 100 "2024-01-01T00:00:00.000Z" "uuid-1" sampleInput
          { docs := [] }).2).data.map (fun r => r.title)) = some "Physics 101" ∧
    sampleInput.title = some "  Physics 101  " ∧
    ("Physics 101" : String) ≠ "  Physics 101  " := by decide

/-! ## C8 — `duplicateCourse` -/

theorem eq_empty_of_data_nil (s : String) (h : s.data = []) : s = "" := by
  cases s with
  | mk d =>
    simp only at h
    subst h
    rfl

theorem jsTrim_fixpoint_head (s : String) (hs : jsTrim s = s) :
    ∀ c, s.data.head? = some c → c.isWhitespace = false := by
  intro c hc
  have hdata : dropTrailingWS (s.data.dropWhile Char.isWhitespace) = s.data :=
    congrArg String.data hs
  have hpre := dropTrailingWS_prefix (s.data.dropWhile Char.isWhitespace)
  have hsuf := List.dropWhile_suffix (l := s.data) Char.isWhitespace
  have l1 := hpre.length_le
  have l2 := hsuf.length_le
  rw [hdata] at l1
  have hdw : s.data.dropWhile Char.isWhitespace = s.data :=
    hsuf.eq_of_length (by omega)
  exact head?_dropWhile_not _ _ c (by rw [hdw]; exact hc)

/-- Appending the copy suffix to a trimmed non-empty string keeps the
result trimmed. -/
theorem jsTrim_append_copy (x : String) (hx : jsTrim x = x) (hne : x ≠ "") :
    jsTrim (x ++ " (Copy)") = x ++ " (Copy)" := by
  have hdata : (x ++ " (Copy)").data = x.data ++ (" (Copy)" : String).data := rfl
  have hxd : x.data ≠ [] := fun h0 => hne (eq_empty_of_data_nil x h0)
  apply jsTrim_eq_self
  · intro c hc
    rw [hdata, List.head?_append] at hc
    cases hxd2 : x.data with
    | nil => exact absurd hxd2 hxd
    | cons a tl =>
      rw [hxd2] at hc
      have hac : some a = some c := hc
      have hac2 : a = c := by injection hac
      subst hac2
      exact jsTrim_fixpoint_head x hx a (by rw [hxd2]; rfl)
  · intro c hc
    rw [hdata, List.getLast?_append] at hc
    have hpc : some ')' = some c := hc
    have hpc2 : ')' = c := by injection hpc
    subst hpc2
    decide

theorem blankOpt_false_of (y : String) (h : jsTrim y ≠ "") :
    blankOpt (some y) = false := by
  have hy : y ≠ "" := by
    intro h0
    subst h0
    exact h rfl
  simp [blankOpt, hy, h]

theorem levelBad_false_of (y : String)
    (h : y = "beginner" ∨ y = "intermediate" ∨ y = "advanced") :
    levelBad (some y) = false := by
  rcases h with rfl | rfl | rfl <;> decide

theorem createCourse_fields (now : Nat) (nowIso freshId : String) (c : NewCourse)
    (db : DB) (hval : (validateCourseData c).isValid = true) :
    createCourse now nowIso freshId c db =
      ({ success := true
         data := some { cleanCourseData (courseWithMetadata now nowIso freshId c) with
           createdAt := some now, updatedAt := some now } },
       { docs := cleanCourseData (courseWithMetadata now nowIso freshId c) :: db.docs }) := by
  simp [createCourse, hval]

/-- C8 (amended): for every existing course whose stored record still
satisfies the creation validation rules (with a trimmed non-empty title)
and a fresh generated identifier, `duplicateCourse` with no new title
produces a record with the fresh identifier (distinct from the
original's), draft status, zeroed enrolment and rating counters, the
original title suffixed with " (Copy)", and the slug regenerated from
that new title. -/
theorem duplicateCourse_spec (now : Nat) (nowIso freshId courseId : String)
    (db : DB) (orig : CourseDoc)
    (hid : jsTrim courseId ≠ "")
    (hfound : db.docs.find? (fun d => d._id == courseId) = some orig)
    (hfid : jsTrim freshId = freshId)
    (hdiff : freshId ≠ courseId)
    (htitle : jsTrim orig.title = orig.title) (htne : orig.title ≠ "")
    (hsd : jsTrim orig.shortDescription ≠ "")
    (hcat : jsTrim orig.category ≠ "")
    (hlev : orig.level = "beginner" ∨ orig.level = "intermediate" ∨
      orig.level = "advanced")
    (hlang : jsTrim orig.language ≠ "")
    (hdur : jsTrim orig.duration ≠ "")
    (hhrs : jsTrim orig.hours ≠ "")
    (hp : 0 ≤ numOr0 orig.price) (hop : 0 ≤ numOr0 orig.originalPrice)
    (hpo : 0 < numOr0 orig.originalPrice →
      numOr0 orig.price ≤ numOr0 orig.originalPrice) :
    (duplicateCourse now nowIso freshId courseId none db).1.success = true ∧
    ∃ rec, (duplicateCourse now nowIso freshId courseId none db).1.data = some rec ∧
      rec._id = freshId ∧ rec._id ≠ courseId ∧
      rec.status = "draft" ∧
      rec.enrolledStudents = some 0 ∧ rec.rating = some 0 ∧ rec.totalRatings = some 0 ∧
      rec.title = orig.title ++ " (Copy)" ∧
      rec.slug = slugify (orig.title ++ " (Copy)") := by
  have hget : getCourseById now courseId db =
      { success := true, data := some (normalizeRead now orig), error := none } := by
    unfold getCourseById
    rw [if_neg hid, hfound]
  have hrun : duplicateCourse now nowIso freshId courseId none db =
      createCourse now nowIso freshId
        (duplicatedCourse nowIso none (normalizeRead now orig)) db := by
    unfold duplicateCourse
    rw [hget]
  have hjt : jsTrim (orig.title ++ " (Copy)") = orig.title ++ " (Copy)" :=
    jsTrim_append_copy orig.title htitle htne
  have htne2 : orig.title ++ " (Copy)" ≠ "" := by
    intro h0
    have h1 : orig.title.data ++ (" (Copy)" : String).data = [] :=
      congrArg String.data h0
    have h2 := (List.append_eq_nil.mp h1).2
    exact absurd h2 (by decide)
  have hval : (validateCourseData
      (duplicatedCourse nowIso none (normalizeRead now orig))).isValid = true := by
    apply valid_of_flags
    · show blankOpt (some (strOr none (orig.title ++ " (Copy)"))) = false
      apply blankOpt_false_of
      show jsTrim (orig.title ++ " (Copy)") ≠ ""
      rw [hjt]
      exact htne2
    · exact blankOpt_false_of orig.shortDescription hsd
    · exact blankOpt_false_of orig.category hcat
    · exact levelBad_false_of orig.level hlev
    · exact blankOpt_false_of orig.language hlang
    · exact blankOpt_false_of orig.duration hdur
    · exact blankOpt_false_of orig.hours hhrs
    · show badNum (some (numOr0 orig.price)) = false
      simp only [badNum, decide_eq_false_iff_not]
      omega
    · show badNum (some (numOr0 orig.originalPrice)) = false
      simp only [badNum, decide_eq_false_iff_not]
      omega
    · show (numGtZero (some (numOr0 orig.originalPrice)) &&
        numGt (some (numOr0 orig.price)) (some (numOr0 orig.originalPrice))) = false
      by_cases hgt : 0 < numOr0 orig.originalPrice
      · have hle := hpo hgt
        simp only [numGtZero, numGt, Bool.and_eq_false_iff, decide_eq_false_iff_not]
        right
        omega
      · simp only [numGtZero, numGt, Bool.and_eq_false_iff, decide_eq_false_iff_not]
        left
        omega
  rw [hrun, createCourse_fields now nowIso freshId _ db hval]
  refine ⟨rfl, ?_⟩
  have hstr : strOr (some (orig.title ++ " (Copy)")) "" = orig.title ++ " (Copy)" := by
    simp [strOr, htne2]
  refine ⟨_, rfl, hfid, ?_, rfl, rfl, rfl, rfl, ?_, ?_⟩
  · show jsTrim freshId ≠ courseId
    rw [hfid]
    exact hdiff
  · show jsTrim (strOr (some (jsTrim (orig.title ++ " (Copy)"))) "") =
      orig.title ++ " (Copy)"
    rw [hjt, hstr]
    exact hjt
  · show jsTrim (strOr (some (jsTrim (slugify (strOr none (orig.title ++ " (Copy)")))))
      (strOr (some (slugify (strOr none (orig.title ++ " (Copy)")))) "")) =
      slugify (orig.title ++ " (Copy)")
    show jsTrim (strOr (some (jsTrim (slugify (orig.title ++ " (Copy)"))))
      (strOr (some (slugify (orig.title ++ " (Copy)"))) "")) =
      slugify (orig.title ++ " (Copy)")
    rw [jsTrim_slugify]
    by_cases hz : slugify (orig.title ++ " (Copy)") = ""
    · rw [hz]
      decide
    · have hstr2 : strOr (some (slugify (orig.title ++ " (Copy)")))
          (strOr (some (slugify (orig.title ++ " (Copy)"))) "") =
          slugify (orig.title ++ " (Copy)") := by
        simp [strOr, hz]
      rw [hstr2]
      exact jsTrim_slugify _

/-- Witness for C8 at a concrete stored course. -/
theorem duplicateCourse_spec_witness :
    (duplicateCourse 7 "2024-03-03" "uuid-2" "course-1"
      none { docs := [storedCourse] }).1.success = true ∧
    ∃ rec, (duplicateCourse 7 "2024-03-03" "uuid-2" "course-1"
        none { docs := [storedCourse] }).1.data = some rec ∧
      rec._id = "uuid-2" ∧ rec._id ≠ "course-1" ∧
      rec.status = "draft" ∧
      rec.enrolledStudents = some 0 ∧ rec.rating = some 0 ∧ rec.totalRatings = some 0 ∧
      rec.title = storedCourse.title ++ " (Copy)" ∧
      rec.slug = slugify (storedCourse.title ++ " (Copy)") :=
  duplicateCourse_spec 7 "2024-03-03" "uuid-2" "course-1" { docs := [storedCourse] }
    storedCourse (by decide) (by decide) (by decide) (by decide) (by decide)
    (by decide) (by decide) (by decide) (by decide) (by decide) (by decide)
    (by decide) (by decide) (by decide) (by decide)

/-- A stored document whose short description has been blanked (reachable
through a partial update, which does not re-validate this field). -/
def blankedDescCourse : CourseDoc :=
  { storedCourse with _id := "course-2", shortDescription := "" }

/-- Counterexample to C8 as stated: duplicating an existing course whose
stored data violates a validation rule does not produce a new record — the
delegated `createCourse` fails. -/
theorem duplicateCourse_fails_on_blank_description :
    (duplicateCourse 0 "2024-01-01" "uuid-9" "course-2" none
      { docs := [blankedDescCourse] }).1.success = false ∧
    (duplicateCourse 0 "2024-01-01" "uuid-9" "course-2" none
      { docs := [blankedDescCourse] }).1.error =
      some "Validation failed: Short description is required" ∧
    (duplicateCourse 0 "2024-01-01" "uuid-9" "course-2" none
      { docs := [blankedDescCourse] }).2 = { docs := [blankedDescCourse] } := by
  decide

/-! ## C7 — `deleteCourses` bulk delete -/

theorem length_filterMap_eq_length_filter (f : α → Option β) (l : List α) :
    (l.filterMap f).length = (l.filter (fun a => (f a).isSome)).length := by
  induction l with
  | nil => rfl
  | cons a t ih =>
    cases hf : f a with
    | none => simpa [List.filterMap_cons, hf, List.filter_cons] using ih
    | some b => simpa [List.filterMap_cons, hf, List.filter_cons] using ih

theorem findFirstIdx_isSome (p : α → Bool) (l : List α) :
    (findFirstIdx p l).isSome = l.any p := by
  induction l with
  | nil => rfl
  | cons a t ih =>
    by_cases h : p a
    · simp [findFirstIdx, h]
    · simp only [findFirstIdx, h, if_false, List.any_cons]
      simpa [h] using ih

theorem findFirstIdx_some (p : α → Bool) :
    ∀ (l : List α) (j : Nat), findFirstIdx p l = some j →
      ∃ hj : j < l.length, p (l.get ⟨j, hj⟩) = true
  | [], j, h => by simp [findFirstIdx] at h
  | a :: t, j, h => by
    by_cases hp : p a
    · simp only [findFirstIdx, if_pos hp, Option.some.injEq] at h
      subst h
      exact ⟨by simp, by simpa using hp⟩
    · simp only [findFirstIdx, if_neg hp] at h
      cases hft : findFirstIdx p t with
      | none =>
        rw [hft] at h
        simp at h
      | some k =>
        rw [hft] at h
        have hkj : k + 1 = j := by simpa using h
        subst hkj
        obtain ⟨hk2, hpk⟩ := findFirstIdx_some p t k hft
        exact ⟨by simpa using Nat.succ_lt_succ hk2, by simpa using hpk⟩

theorem findFirstIdx_map_nodup {β : Type} [BEq β] [LawfulBEq β] (f : α → β) :
    ∀ (l : List α) (j : Nat) (hj : j < l.length), (l.map f).Nodup →
      findFirstIdx (fun a => f a == f (l.get ⟨j, hj⟩)) l = some j
  | [], j, hj, _ => by simp at hj
  | a :: t, 0, hj, hnd => by simp [findFirstIdx]
  | a :: t, j + 1, hj, hnd => by
    have hj2 : j < t.length := by simpa using Nat.lt_of_succ_lt_succ hj
    have hget : (a :: t).get ⟨j + 1, hj⟩ = t.get ⟨j, hj2⟩ := rfl
    have hnd2 : (∀ x ∈ t, ¬ f x = f a) ∧ (t.map f).Nodup := by simpa using hnd
    have hne : ¬ (f a == f (t.get ⟨j, hj2⟩)) = true := by
      intro hbeq
      have heq : f a = f (t.get ⟨j, hj2⟩) := by simpa using hbeq
      exact hnd2.1 (t.get ⟨j, hj2⟩) (List.get_mem t j hj2) heq.symm
    rw [hget]
    simp only [findFirstIdx, if_neg hne]
    rw [findFirstIdx_map_nodup f t j hj2 hnd2.2]
    rfl

theorem deleteRefsAux_eq_filter (refs : List Nat) (g : α → Bool) :
    ∀ (l : List α) (k : Nat),
      (∀ j (hj : j < l.length), refs.contains (k + j) = g (l.get ⟨j, hj⟩)) →
      deleteRefsAux refs k l = l.filter (fun a => !(g a))
  | [], _, _ => rfl
  | a :: t, k, h => by
    have h0 : refs.contains k = g a := by simpa using h 0 (by simp)
    have ht : ∀ j (hj : j < t.length),
        refs.contains ((k + 1) + j) = g (t.get ⟨j, hj⟩) := by
      intro j hj
      have h2 := h (j + 1) (by simpa using Nat.succ_lt_succ hj)
      rw [show k + (j + 1) = (k + 1) + j by omega] at h2
      simpa using h2
    cases hg : g a with
    | true =>
      simp only [deleteRefsAux, h0, hg, if_true]
      rw [deleteRefsAux_eq_filter refs g t (k + 1) ht]
      simp [List.filter_cons, hg]
    | false =>
      simp only [deleteRefsAux, h0, hg, Bool.false_eq_true, if_false]
      rw [deleteRefsAux_eq_filter refs g t (k + 1) ht]
      simp [List.filter_cons, hg]

/-- C7 (amended): for a non-empty, duplicate-free request list against a
collection with unique identifiers, `deleteCourses` removes exactly the
documents whose identifier is among the matching requested ids, reports
their number as `deletedCount`, and succeeds whenever at least one id
matched; when zero requested ids match it fails with the no-courses-found
error and deletes nothing; an empty request list fails with the
ids-required error instead. -/
theorem deleteCourses_spec (courseIds : List String) (db : DB)
    (hne : courseIds ≠ []) (hnd : courseIds.Nodup)
    (hdb : (db.docs.map CourseDoc._id).Nodup) :
    ((courseIds.filter (fun cid => db.docs.any (fun d => d._id == cid))) = [] →
      deleteCourses courseIds db =
        ({ success := false, error := some "No courses found to delete" }, db)) ∧
    ((courseIds.filter (fun cid => db.docs.any (fun d => d._id == cid))) ≠ [] →
      (deleteCourses courseIds db).1 =
        { success := true
          deletedCount := some (courseIds.filter
            (fun cid => db.docs.any (fun d => d._id == cid))).length } ∧
      (deleteCourses courseIds db).2.docs =
        db.docs.filter (fun d =>
          !((courseIds.filter (fun cid => db.docs.any (fun d2 => d2._id == cid))).contains
            d._id))) ∧
    deleteCourses [] db =
      ({ success := false, error := some "Course IDs are required" }, db) := by
  have hempty : courseIds.isEmpty = false := by
    cases courseIds with
    | nil => exact absurd rfl hne
    | cons a t => rfl
  have hlen : (courseIds.filterMap
      (fun cid => findFirstIdx (fun d => d._id == cid) db.docs)).length =
      (courseIds.filter (fun cid => db.docs.any (fun d => d._id == cid))).length := by
    rw [length_filterMap_eq_length_filter]
    congr 1
    exact List.filter_congr (fun cid _ => findFirstIdx_isSome _ _)
  refine ⟨?_, ?_, by simp [deleteCourses]⟩
  · intro hm
    have hz : (courseIds.filterMap
        (fun cid => findFirstIdx (fun d => d._id == cid) db.docs)).length = 0 := by
      rw [hlen, hm]
      rfl
    simp only [deleteCourses]
    rw [if_neg (by rw [hempty]; simp), if_pos hz]
  · intro hm
    have hz : ¬ (courseIds.filterMap
        (fun cid => findFirstIdx (fun d => d._id == cid) db.docs)).length = 0 := by
      rw [hlen]
      simpa using hm
    have hpremise : ∀ j (hj : j < db.docs.length),
        (courseIds.filterMap
          (fun cid => findFirstIdx (fun d => d._id == cid) db.docs)).contains (0 + j) =
        (courseIds.filter (fun cid => db.docs.any (fun d2 => d2._id == cid))).contains
          ((db.docs.get ⟨j, hj⟩)._id) := by
      intro j hj
      rw [Nat.zero_add, Bool.eq_iff_iff]
      simp only [List.contains, List.elem_eq_mem, decide_eq_true_eq]
      constructor
      · intro hjmem
        obtain ⟨cid, hcidmem, hfind⟩ := List.mem_filterMap.mp hjmem
        obtain ⟨hj2, hpj⟩ := findFirstIdx_some _ _ _ hfind
        have hideq : (db.docs.get ⟨j, hj2⟩)._id = cid := by simpa using hpj
        have hany : db.docs.any (fun d2 => d2._id == cid) = true := by
          rw [← findFirstIdx_isSome]
          simp [hfind]
        have : (db.docs.get ⟨j, hj⟩)._id = cid := hideq
        rw [this]
        exact List.mem_filter.mpr ⟨hcidmem, hany⟩
      · intro hmem2
        obtain ⟨hcidmem, hany⟩ := List.mem_filter.mp hmem2
        apply List.mem_filterMap.mpr
        refine ⟨(db.docs.get ⟨j, hj⟩)._id, hcidmem, ?_⟩
        exact findFirstIdx_map_nodup CourseDoc._id db.docs j hj hdb
    have hdocs : deleteRefsAux
        (courseIds.filterMap (fun cid => findFirstIdx (fun d => d._id == cid) db.docs))
        0 db.docs =
        db.docs.filter (fun d =>
          !((courseIds.filter (fun cid => db.docs.any (fun d2 => d2._id == cid))).contains
            d._id)) :=
      deleteRefsAux_eq_filter _ _ db.docs 0 hpremise
    constructor
    · show (deleteCourses courseIds db).1 = _
      simp only [deleteCourses]
      rw [if_neg (by rw [hempty]; simp), if_neg hz, hlen]
    · show (deleteCourses courseIds db).2.docs = _
      simp only [deleteCourses]
      rw [if_neg (by rw [hempty]; simp), if_neg hz]
      exact hdocs

/-- Witness for C7: of two requested ids only one exists; it is removed
and the count is one. -/
theorem deleteCourses_spec_witness :
    (deleteCourses ["course-1", "ghost"] { docs := [storedCourse] }).1 =
      { success := true
        deletedCount := some (["course-1", "ghost"].filter
          (fun cid => ({ docs := [storedCourse] } : DB).docs.any
            (fun d => d._id == cid))).length } ∧
    (deleteCourses ["course-1", "ghost"] { docs := [storedCourse] }).2.docs =
      ({ docs := [storedCourse] } : DB).docs.filter (fun d =>
        !((["course-1", "ghost"].filter
          (fun cid => ({ docs := [storedCourse] } : DB).docs.any
            (fun d2 => d2._id == cid))).contains d._id)) :=
  (deleteCourses_spec ["course-1", "ghost"] { docs := [storedCourse] }
    (by decide) (by decide) (by decide)).2.1 (by decide)

/-- Counterexample to C7 as stated: an empty request list has zero
matching ids, yet the failure message is the ids-required one, not the
no-courses-found one. -/
theorem deleteCourses_empty_list_message :
    deleteCourses [] { docs := [storedCourse] } =
      ({ success := false, error := some "Course IDs are required" },
        { docs := [storedCourse] }) ∧
    some "Course IDs are required" ≠ some "No courses found to delete" := by
  decide

end CourseAdmin
